import Mathlib

/-!
# Verification of the rtr_moveit RapidPlan planner interface

A shallow embedding of the `rtr_moveit` planner interface
(`rtr_planner_interface.h`).  The repository ships only the header
declarations; the single inline body is `findRoadmapIndex`, which is
embedded directly from the source.  The behaviour of the remaining
operations (`prepareRoadmap` / `ensureLoaded`, the two `solve` variants,
the introspection getters and the lock discipline) is modelled from the
specification, as indicated on each definition.

Machine reals (the `double` timeout, pose coordinates) are modelled as
rationals; devices are modelled as deterministic oracles; every
device-visible interaction is recorded in an event trace so that
load-counting, search-counting and lock-bracketing properties can be
stated.
-/

namespace RtrMoveit

/-- A joint-space configuration (`rtr::Config`); coordinates as rationals. -/
abbrev Config := List ℚ

/-- An encoded occupancy buffer (`OccupancyData`), opaque to the core. -/
abbrev OccupancyData := List ℕ

/-- A 6-DOF transform (`rtr::ToolPose`): translation and rotation coordinates. -/
structure ToolPose where
  x : ℚ
  y : ℚ
  z : ℚ
  rx : ℚ
  ry : ℚ
  rz : ℚ
  deriving DecidableEq, Repr

/-- The all-zero tool pose. -/
def zeroPose : ToolPose := ⟨0, 0, 0, 0, 0, 0⟩

/-- From the source (`rtr_planner_interface.h`, `RapidPlanGoal::Type`):
RapidPlan supports either ids of roadmap states or tool pose transforms
as goals. -/
inductive GoalType where
  | STATE_IDS
  | TOOL_POSE
  deriving DecidableEq, Repr

/-- From the source (`rtr_planner_interface.h`, `struct RapidPlanGoal`):
a struct holding a `type` tag together with *all* payload fields —
`state_ids`, and the `tool_pose`/`tolerance`/`weights` transforms —
unconditionally present. -/
structure RapidPlanGoal where
  type : GoalType
  state_ids : List ℕ
  tool_pose : ToolPose
  tolerance : ToolPose
  weights : ToolPose
  deriving DecidableEq, Repr

/-- A goal value carries the state-ids shape when its `state_ids` list is
non-empty. -/
def carriesStateIdsShape (g : RapidPlanGoal) : Prop := g.state_ids ≠ []

/-- A goal value carries the tool-pose shape when its pose data is
populated (non-zero tool pose). -/
def carriesToolPoseShape (g : RapidPlanGoal) : Prop := g.tool_pose ≠ zeroPose

instance (g : RapidPlanGoal) : Decidable (carriesStateIdsShape g) := by
  unfold carriesStateIdsShape; infer_instance

instance (g : RapidPlanGoal) : Decidable (carriesToolPoseShape g) := by
  unfold carriesToolPoseShape; infer_instance

/-- Identity of a roadmap (`RoadmapSpecification`): unique name, file
path and kinematic group. -/
structure RoadmapSpecification where
  name : String
  path : String
  group : String
  deriving DecidableEq, Repr

/-- Modelled from the spec: `LoadedRoadmapState` — which roadmap name is
currently resident on the accelerator and the device-assigned numeric
index for it (the source keeps `loaded_roadmap_ : std::string` and the
device index in `roadmap_indices_`; the bodies maintaining them are not
in the repository). -/
structure LoadedRoadmapState where
  name : String
  index : ℕ
  deriving DecidableEq, Repr

/-- The error taxonomy of the specification (section 7). -/
inductive PlanError where
  | DeviceNotReady
  | UnknownRoadmap
  | DuplicateNameConflict
  | InvalidStartState
  | InvalidGoalSpecification
  | InvalidTimeout
  | DeviceLoadError
  | DeviceError
  | DeviceReadError
  | NoSolutionFound
  | PlanningTimeout
  deriving DecidableEq, Repr

/-- Device-visible events, recorded in traces: lock acquisition/release
and the three kinds of device interaction (roadmap load, path search,
array read). -/
inductive Event where
  | lockAcquire
  | lockRelease
  | deviceLoad (name : String)
  | deviceSearch
  | deviceRead
  deriving DecidableEq, Repr

/-- The goal descriptor actually submitted to the device: a genuine sum,
holding only the tag-selected payload. -/
inductive DeviceGoal where
  | stateIds (ids : List ℕ)
  | toolPose (pose tolerance weights : ToolPose)
  deriving DecidableEq, Repr

/-- Modelled from the spec: submission of a `RapidPlanGoal` to the device
matches exhaustively on the tag and forwards only the tag-selected
payload (the submitting body is not in the repository). -/
def toDeviceGoal (g : RapidPlanGoal) : DeviceGoal :=
  match g.type with
  | .STATE_IDS => .stateIds g.state_ids
  | .TOOL_POSE => .toolPose g.tool_pose g.tolerance g.weights

/-- Raw outcome of the accelerator's path-search primitive (spec section
4.3 step 3): success with a path, success-empty, timeout, or a
device/communication error. -/
inductive SearchOutcome where
  | pathFound (waypoints : List ℕ) (edges : List ℕ)
  | noPathFound
  | timedOut
  | deviceFailure
  deriving DecidableEq, Repr

/-- The external accelerator, modelled as a deterministic oracle: result
of a load-by-name, result of a search (given roadmap index, start id,
goal descriptor, occupancy and timeout), the static per-roadmap arrays,
the dense-path interpolator, and whether array reads succeed. -/
structure Device where
  loadResult : String → Option ℕ
  search : ℕ → ℕ → DeviceGoal → OccupancyData → ℚ → SearchOutcome
  configs : String → List Config
  edges : String → List (ℕ × ℕ)
  transforms : String → List ToolPose
  interpolate : List ℕ → List Config
  readOk : Bool

/-- The planner interface's mutable state: readiness flag, the roadmap
registry (`roadmaps_`), the single-slot loaded-roadmap bookkeeping, and
the indices of roadmaps written to the board (`roadmap_indices_`). -/
structure PlannerState where
  ready : Bool
  roadmaps : List (String × RoadmapSpecification)
  loaded_roadmap : Option LoadedRoadmapState
  roadmap_indices : List (ℕ × String)

/-- Registry lookup (`roadmaps_` association). -/
def lookupSpec (registry : List (String × RoadmapSpecification)) (name : String) :
    Option RoadmapSpecification :=
  match registry with
  | [] => none
  | (n, spec) :: rest => if n = name then some spec else lookupSpec rest name

/-- From the source (`rtr_planner_interface.h`, `findRoadmapIndex`):
iterate over `roadmap_indices_` in map order and return the first key
whose mapped name equals the given name; on failure return `false` and
leave the output parameter unmodified. -/
def findRoadmapIndex (indices : List (ℕ × String)) (roadmap_name : String)
    (roadmap_index : ℕ) : Bool × ℕ :=
  match indices with
  | [] => (false, roadmap_index)
  | (k, v) :: rest =>
      if v = roadmap_name then (true, k)
      else findRoadmapIndex rest roadmap_name roadmap_index

/-! ## The roadmap loader and the solve/introspection operations

All bodies below are modelled from the spec, since the repository ships
only their declarations.  Every operation returns its result together
with the successor state and the trace of events it emitted. -/

/-- Modelled from the spec (section 4.2, body of `prepareRoadmap` /
`loadRoadmapToPathPlanner` is not in the repository): the slow path of
`ensureLoaded` — look up the specification (fail `UnknownRoadmap` if
absent), issue the accelerator's load operation, record the returned
device index and overwrite `LoadedRoadmapState`; a failed device load
leaves the state unchanged and fails with `DeviceLoadError`. -/
def loadFresh (dev : Device) (s : PlannerState) (name : String) :
    Except PlanError ℕ × PlannerState × List Event :=
  match lookupSpec s.roadmaps name with
  | none => (.error .UnknownRoadmap, s, [])
  | some _spec =>
      match dev.loadResult name with
      | some idx =>
          (.ok idx,
           { s with loaded_roadmap := some ⟨name, idx⟩,
                    roadmap_indices := (idx, name) :: s.roadmap_indices },
           [Event.deviceLoad name])
      | none => (.error .DeviceLoadError, s, [Event.deviceLoad name])

/-- Modelled from the spec (section 4.2, `ensureLoaded` /
`prepareRoadmap`): if the requested name equals the currently loaded
roadmap's name, return the cached index immediately with no device
interaction; otherwise load afresh. -/
def ensureLoaded (dev : Device) (s : PlannerState) (name : String) :
    Except PlanError ℕ × PlannerState × List Event :=
  match s.loaded_roadmap with
  | some lr => if lr.name = name then (.ok lr.index, s, []) else loadFresh dev s name
  | none => loadFresh dev s name

/-- Modelled from the spec (section 4.3 preconditions): a goal must
specify either a non-empty state-id set or a tool pose + tolerance +
weight triple. -/
def goalValid (g : RapidPlanGoal) : Bool :=
  match g.type with
  | .STATE_IDS => !g.state_ids.isEmpty
  | .TOOL_POSE => true

/-- A solve request: roadmap, start state id, goal, occupancy and
timeout (a `double` in the source, modelled as a rational). -/
structure SolveRequest where
  roadmap_spec : RoadmapSpecification
  start_state_id : ℕ
  goal : RapidPlanGoal
  occupancy : OccupancyData
  timeout : ℚ

/-- Result of the sparse solve variant: the full configuration list of
the roadmap, plus the waypoint and edge index sequences as reported by
the device. -/
structure SparseSolution where
  roadmap_states : List Config
  waypoints : List ℕ
  edges : List ℕ
  deriving DecidableEq, Repr

/-- Wrap a trace in the process-wide exclusive lock: acquire on entry,
release on exit. -/
def withLock (t : List Event) : List Event :=
  Event.lockAcquire :: t ++ [Event.lockRelease]

/-- Modelled from the spec (section 4.3, body of `solve` is not in the
repository): the guarded core of a sparse solve.  Ensure the roadmap is
loaded (propagating failures), validate the start state id against the
resident roadmap's state set (detected after load), submit the search
and interpret the device result code. -/
def solveSparseLocked (dev : Device) (s : PlannerState) (req : SolveRequest) :
    Except PlanError SparseSolution × PlannerState × List Event :=
  match ensureLoaded dev s req.roadmap_spec.name with
  | (.error e, s1, t) => (.error e, s1, t)
  | (.ok idx, s1, t) =>
      if req.start_state_id ≥ (dev.configs req.roadmap_spec.name).length then
        (.error .InvalidStartState, s1, t)
      else
        match dev.search idx req.start_state_id (toDeviceGoal req.goal)
            req.occupancy req.timeout with
        | .pathFound ws es =>
            (.ok ⟨dev.configs req.roadmap_spec.name, ws, es⟩, s1,
             t ++ [Event.deviceSearch])
        | .noPathFound => (.error .NoSolutionFound, s1, t ++ [Event.deviceSearch])
        | .timedOut => (.error .PlanningTimeout, s1, t ++ [Event.deviceSearch])
        | .deviceFailure => (.error .DeviceError, s1, t ++ [Event.deviceSearch])

/-- Modelled from the spec (sections 4.3, 4.5, 7): the sparse solve entry
point.  Fail fast with `DeviceNotReady` when not ready; detect
`InvalidTimeout` and `InvalidGoalSpecification` before touching the
device; run the core under the exclusive lock. -/
def solveSparse (dev : Device) (s : PlannerState) (req : SolveRequest) :
    Except PlanError SparseSolution × PlannerState × List Event :=
  if !s.ready then (.error .DeviceNotReady, s, [])
  else if req.timeout ≤ 0 then (.error .InvalidTimeout, s, [])
  else if !goalValid req.goal then (.error .InvalidGoalSpecification, s, [])
  else
    ((solveSparseLocked dev s req).1, (solveSparseLocked dev s req).2.1,
     withLock (solveSparseLocked dev s req).2.2)

/-- Modelled from the spec (section 4.3 step 4): the guarded core of a
dense solve — the shared core, then a device request for interpolated
configurations along the returned edge sequence. -/
def solveDenseLocked (dev : Device) (s : PlannerState) (req : SolveRequest) :
    Except PlanError (List Config) × PlannerState × List Event :=
  match solveSparseLocked dev s req with
  | (.ok sol, s1, t) => (.ok (dev.interpolate sol.edges), s1, t ++ [Event.deviceRead])
  | (.error e, s1, t) => (.error e, s1, t)

/-- Modelled from the spec: the dense solve entry point, same gating and
lock discipline as the sparse variant. -/
def solveDense (dev : Device) (s : PlannerState) (req : SolveRequest) :
    Except PlanError (List Config) × PlannerState × List Event :=
  if !s.ready then (.error .DeviceNotReady, s, [])
  else if req.timeout ≤ 0 then (.error .InvalidTimeout, s, [])
  else if !goalValid req.goal then (.error .InvalidGoalSpecification, s, [])
  else
    ((solveDenseLocked dev s req).1, (solveDenseLocked dev s req).2.1,
     withLock (solveDenseLocked dev s req).2.2)

/-- Modelled from the spec (section 4.4): guarded core of an
introspection read — ensure the roadmap is loaded, then read one static
array from the device (failing with `DeviceReadError` when the read
fails). -/
def readLocked {α : Type} (dev : Device) (s : PlannerState) (name : String)
    (read : String → α) :
    Except PlanError α × PlannerState × List Event :=
  match ensureLoaded dev s name with
  | (.error e, s1, t) => (.error e, s1, t)
  | (.ok _idx, s1, t) =>
      if dev.readOk then (.ok (read name), s1, t ++ [Event.deviceRead])
      else (.error .DeviceReadError, s1, t ++ [Event.deviceRead])

/-- Modelled from the spec (section 4.4, `getRoadmapConfigs`): readiness
gate, then the guarded configuration-array read. -/
def getRoadmapConfigs (dev : Device) (s : PlannerState)
    (roadmap_spec : RoadmapSpecification) :
    Except PlanError (List Config) × PlannerState × List Event :=
  if !s.ready then (.error .DeviceNotReady, s, [])
  else
    ((readLocked dev s roadmap_spec.name dev.configs).1,
     (readLocked dev s roadmap_spec.name dev.configs).2.1,
     withLock (readLocked dev s roadmap_spec.name dev.configs).2.2)

/-- Modelled from the spec (section 4.4, `getRoadmapEdges`). -/
def getRoadmapEdges (dev : Device) (s : PlannerState)
    (roadmap_spec : RoadmapSpecification) :
    Except PlanError (List (ℕ × ℕ)) × PlannerState × List Event :=
  if !s.ready then (.error .DeviceNotReady, s, [])
  else
    ((readLocked dev s roadmap_spec.name dev.edges).1,
     (readLocked dev s roadmap_spec.name dev.edges).2.1,
     withLock (readLocked dev s roadmap_spec.name dev.edges).2.2)

/-- Modelled from the spec (section 4.4, `getRoadmapTransforms`). -/
def getRoadmapTransforms (dev : Device) (s : PlannerState)
    (roadmap_spec : RoadmapSpecification) :
    Except PlanError (List ToolPose) × PlannerState × List Event :=
  if !s.ready then (.error .DeviceNotReady, s, [])
  else
    ((readLocked dev s roadmap_spec.name dev.transforms).1,
     (readLocked dev s roadmap_spec.name dev.transforms).2.1,
     withLock (readLocked dev s roadmap_spec.name dev.transforms).2.2)

/-! ## Trace observations -/

/-- Is an event a lock event? -/
def isLockEvent : Event → Bool
  | .lockAcquire => true
  | .lockRelease => true
  | _ => false

/-- Is an event a device interaction (load, search or read)? -/
def isDeviceEvent : Event → Bool
  | .deviceLoad _ => true
  | .deviceSearch => true
  | .deviceRead => true
  | _ => false

/-- The device interactions of a trace. -/
def deviceEvents (t : List Event) : List Event := t.filter isDeviceEvent

/-- Number of device load invocations in a trace. -/
def countLoads (t : List Event) : ℕ :=
  (t.filter fun e => match e with | .deviceLoad _ => true | _ => false).length

/-- Number of device search invocations in a trace. -/
def countSearches (t : List Event) : ℕ :=
  (t.filter fun e => e = Event.deviceSearch).length

/-- A trace contains no lock events. -/
def noLockEvents (t : List Event) : Bool := t.all fun e => !isLockEvent e

/-- A trace is well-guarded when it is empty (the operation never touched
the device) or consists of exactly one lock acquisition, a lock-free
body, and a final lock release — so every device interaction happens
strictly inside the critical section and the lock is released on every
exit path. -/
def wellGuarded (t : List Event) : Bool :=
  match t with
  | [] => true
  | Event.lockAcquire :: rest =>
      match rest.getLast? with
      | some Event.lockRelease => noLockEvents rest.dropLast
      | _ => false
  | _ => false

/-- Run a sequence of roadmap loads through `ensureLoaded`, threading the
state and concatenating the traces. -/
def runLoads (dev : Device) : PlannerState → List String → PlannerState × List Event
  | s, [] => (s, [])
  | s, n :: ns =>
      match ensureLoaded dev s n with
      | (_, s1, t1) =>
          match runLoads dev s1 ns with
          | (s2, t2) => (s2, t1 ++ t2)

instance {ε α : Type} [DecidableEq ε] [DecidableEq α] : DecidableEq (Except ε α) :=
  fun a b =>
    match a, b with
    | .ok x, .ok y =>
        if h : x = y then .isTrue (by rw [h]) else .isFalse (by simp [h])
    | .error x, .error y =>
        if h : x = y then .isTrue (by rw [h]) else .isFalse (by simp [h])
    | .ok _, .error _ => .isFalse (by simp)
    | .error _, .ok _ => .isFalse (by simp)

/-! ## Concrete instances used in scenarios and witnesses -/

/-- A demo roadmap specification for a given name. -/
def demoSpec (n : String) : RoadmapSpecification := ⟨n, n ++ ".og", "manipulator"⟩

/-- A demo registry holding roadmaps `A`, `B` and `shelf_pick`. -/
def demoRegistry : List (String × RoadmapSpecification) :=
  [("A", demoSpec "A"), ("B", demoSpec "B"), ("shelf_pick", demoSpec "shelf_pick")]

/-- The 10-configuration list of the `shelf_pick` demo roadmap. -/
def shelfConfigs : List Config := (List.range 10).map fun i => [(i : ℚ)]

/-- A demo accelerator: loads succeed for the three registered roadmaps
(indices 0, 1, 2), every search reports the path `0 → 3 → 9` over edges
`[2, 5]`, and `shelf_pick` has ten configurations. -/
def demoDevice : Device where
  loadResult n :=
    if n = "A" then some 0
    else if n = "B" then some 1
    else if n = "shelf_pick" then some 2
    else none
  search _ _ _ _ _ := .pathFound [0, 3, 9] [2, 5]
  configs n := if n = "shelf_pick" then shelfConfigs else [[0], [1], [2]]
  edges _ := [(0, 1)]
  transforms _ := [zeroPose]
  interpolate es := es.map fun e => [(e : ℚ)]
  readOk := true

/-- The demo device with a failing roadmap-load operation. -/
def loadFailDevice : Device := { demoDevice with loadResult := fun _ => none }

/-- A ready planner state over the demo registry with nothing loaded. -/
def demoState : PlannerState := ⟨true, demoRegistry, none, []⟩

/-- A ready planner state with roadmap `A` resident at device index 0. -/
def demoStateLoadedA : PlannerState := ⟨true, demoRegistry, some ⟨"A", 0⟩, []⟩

/-- A planner state whose device initialization has not succeeded. -/
def notReadyState : PlannerState := ⟨false, demoRegistry, none, []⟩

/-- A valid state-ids goal targeting roadmap state 9. -/
def demoGoal : RapidPlanGoal :=
  { type := .STATE_IDS, state_ids := [9], tool_pose := zeroPose,
    tolerance := zeroPose, weights := zeroPose }

/-- A tool-pose goal with zero tolerance. -/
def zeroTolGoal : RapidPlanGoal :=
  { type := .TOOL_POSE, state_ids := [], tool_pose := ⟨1, 2, 3, 0, 0, 0⟩,
    tolerance := zeroPose, weights := ⟨1, 1, 1, 1, 1, 1⟩ }

/-- The end-to-end demo request: solve `shelf_pick` from state 0 to the
state-ids goal `{9}` with empty occupancy and timeout 1. -/
def demoRequest : SolveRequest :=
  { roadmap_spec := demoSpec "shelf_pick", start_state_id := 0,
    goal := demoGoal, occupancy := [], timeout := 1 }

/-- A `RapidPlanGoal` value populating both the state-ids payload and the
tool-pose payload at once — constructible because the source declares
`RapidPlanGoal` as a struct whose payload fields all coexist. -/
def bothShapesGoal : RapidPlanGoal :=
  { type := .STATE_IDS, state_ids := [9], tool_pose := ⟨1, 2, 3, 0, 0, 0⟩,
    tolerance := zeroPose, weights := zeroPose }

/-! ## Theorems -/

/-- C10: over a key-sorted index map (`std::map` iterates keys in
ascending order), `findRoadmapIndex` returns `true` together with the
smallest key whose mapped name equals the given name whenever one
exists, and returns `false` leaving the output parameter unmodified when
no entry matches. -/
theorem claim_C10_findRoadmapIndex (indices : List (ℕ × String)) (name : String)
    (d : ℕ) (hsorted : indices.Pairwise fun a b => a.1 < b.1) :
    ((∃ k, (k, name) ∈ indices) →
        (findRoadmapIndex indices name d).1 = true ∧
        ((findRoadmapIndex indices name d).2, name) ∈ indices ∧
        ∀ k, (k, name) ∈ indices → (findRoadmapIndex indices name d).2 ≤ k) ∧
    ((¬ ∃ k, (k, name) ∈ indices) → findRoadmapIndex indices name d = (false, d)) := by
  induction indices with
  | nil =>
      refine ⟨?_, fun _ => rfl⟩
      rintro ⟨k, hk⟩
      cases hk
  | cons hd tl ih =>
      obtain ⟨k, v⟩ := hd
      rw [List.pairwise_cons] at hsorted
      by_cases hv : v = name
      · refine ⟨fun _ => ?_, fun hno => ?_⟩
        · have hres : findRoadmapIndex ((k, v) :: tl) name d = (true, k) := by
            simp [findRoadmapIndex, hv]
          rw [hres]
          refine ⟨rfl, by rw [hv]; exact List.mem_cons_self _ _, ?_⟩
          intro k' hk'
          rcases List.mem_cons.mp hk' with h | h
          · rw [Prod.mk.injEq] at h
            omega
          · exact le_of_lt (hsorted.1 _ h)
        · exact absurd ⟨k, by rw [hv]; exact List.mem_cons_self _ _⟩ hno
      · have hstep : findRoadmapIndex ((k, v) :: tl) name d =
            findRoadmapIndex tl name d := by
          simp [findRoadmapIndex, hv]
        have hmem : ∀ k' : ℕ, (k', name) ∈ (k, v) :: tl ↔ (k', name) ∈ tl := by
          intro k'
          constructor
          · intro h
            rcases List.mem_cons.mp h with h | h
            · rw [Prod.mk.injEq] at h
              exact absurd h.2.symm hv
            · exact h
          · exact fun h => List.mem_cons_of_mem _ h
        have ihtl := ih hsorted.2
        rw [hstep]
        constructor
        · rintro ⟨k', hk'⟩
          have := ihtl.1 ⟨k', (hmem k').mp hk'⟩
          refine ⟨this.1, (hmem _).mpr this.2.1, ?_⟩
          intro k'' hk''
          exact this.2.2 k'' ((hmem k'').mp hk'')
        · intro hno
          refine ihtl.2 ?_
          rintro ⟨k', hk'⟩
          exact hno ⟨k', (hmem k').mpr hk'⟩

/-- C10 witness: on the concrete sorted map
`{1 ↦ "B", 3 ↦ "A", 7 ↦ "A"}`, the lookup for `"A"` succeeds with a key
at most 3 (the smallest matching key), and the lookup for `"C"` fails
leaving the output value 42 unmodified. -/
theorem claim_C10_findRoadmapIndex_witness :
    (findRoadmapIndex [(1, "B"), (3, "A"), (7, "A")] "A" 42).1 = true ∧
    (findRoadmapIndex [(1, "B"), (3, "A"), (7, "A")] "A" 42).2 ≤ 3 ∧
    findRoadmapIndex [(1, "B"), (3, "A"), (7, "A")] "C" 42 = (false, 42) := by
  have h := claim_C10_findRoadmapIndex [(1, "B"), (3, "A"), (7, "A")] "A" 42 (by decide)
  have h1 := h.1 ⟨3, by decide⟩
  have h2 := claim_C10_findRoadmapIndex [(1, "B"), (3, "A"), (7, "A")] "C" 42 (by decide)
  refine ⟨h1.1, h1.2.2 3 (by decide), h2.2 ?_⟩
  rintro ⟨k, hk⟩
  simp [Prod.ext_iff] at hk

/-- C9 counterexample: the claim that no `RapidPlanGoal` value
simultaneously carries both shapes is false — the source's
`RapidPlanGoal` is a struct whose payload fields coexist, and
`bothShapesGoal` carries a non-empty state-id set together with a
populated tool pose. -/
theorem claim_C9_counterexample :
    ¬ ∀ g : RapidPlanGoal, ¬ (carriesStateIdsShape g ∧ carriesToolPoseShape g) :=
  fun h => h bothShapesGoal (by decide)

/-- C9 (amended): `RapidPlanGoal` is a tagged struct, not a sum type:
values may carry both payloads at once, but the goal descriptor
submitted to the device is built by exhaustive matching on the tag, so
it carries exactly one of the two shapes and depends only on the
tag-selected payload. -/
theorem claim_C9_tagged_submission (g1 g2 : RapidPlanGoal)
    (htype : g1.type = g2.type)
    (hids : g1.type = .STATE_IDS → g1.state_ids = g2.state_ids)
    (hpose : g1.type = .TOOL_POSE →
      g1.tool_pose = g2.tool_pose ∧ g1.tolerance = g2.tolerance ∧
      g1.weights = g2.weights) :
    toDeviceGoal g1 = toDeviceGoal g2 ∧
    ((∃ ids, toDeviceGoal g1 = .stateIds ids) ∨
     (∃ p t w, toDeviceGoal g1 = .toolPose p t w)) := by
  cases hg : g1.type
  · have hg2 : g2.type = .STATE_IDS := htype.symm.trans hg
    refine ⟨?_, Or.inl ⟨g1.state_ids, ?_⟩⟩
    · simp [toDeviceGoal, hg, hg2, hids hg]
    · simp [toDeviceGoal, hg]
  · have hg2 : g2.type = .TOOL_POSE := htype.symm.trans hg
    obtain ⟨h1, h2, h3⟩ := hpose hg
    refine ⟨?_, Or.inr ⟨g1.tool_pose, g1.tolerance, g1.weights, ?_⟩⟩
    · simp [toDeviceGoal, hg, hg2, h1, h2, h3]
    · simp [toDeviceGoal, hg]

/-- C9 witness: `bothShapesGoal` and `demoGoal` share the `STATE_IDS` tag
and the state-id payload but differ in the tool-pose payload; their
device submissions coincide. -/
theorem claim_C9_tagged_submission_witness :
    toDeviceGoal bothShapesGoal = toDeviceGoal demoGoal :=
  (claim_C9_tagged_submission bothShapesGoal demoGoal rfl (fun _ => rfl)
    (fun h => absurd h (by decide))).1

/-- C7: for every solve or introspection call, if `isReady()` is false
the call fails immediately with `DeviceNotReady`, leaves the state
unchanged and emits no events (in particular no device operation). -/
theorem claim_C7_ready_gate (dev : Device) (s : PlannerState) (req : SolveRequest)
    (spec : RoadmapSpecification) (h : s.ready = false) :
    solveSparse dev s req = (.error .DeviceNotReady, s, []) ∧
    solveDense dev s req = (.error .DeviceNotReady, s, []) ∧
    getRoadmapConfigs dev s spec = (.error .DeviceNotReady, s, []) ∧
    getRoadmapEdges dev s spec = (.error .DeviceNotReady, s, []) ∧
    getRoadmapTransforms dev s spec = (.error .DeviceNotReady, s, []) := by
  simp [solveSparse, solveDense, getRoadmapConfigs, getRoadmapEdges,
    getRoadmapTransforms, h]

/-- C7 witness: the concrete not-ready planner state short-circuits all
five operations. -/
theorem claim_C7_ready_gate_witness :
    solveSparse demoDevice notReadyState demoRequest =
      (.error .DeviceNotReady, notReadyState, []) ∧
    solveDense demoDevice notReadyState demoRequest =
      (.error .DeviceNotReady, notReadyState, []) ∧
    getRoadmapConfigs demoDevice notReadyState (demoSpec "A") =
      (.error .DeviceNotReady, notReadyState, []) ∧
    getRoadmapEdges demoDevice notReadyState (demoSpec "A") =
      (.error .DeviceNotReady, notReadyState, []) ∧
    getRoadmapTransforms demoDevice notReadyState (demoSpec "A") =
      (.error .DeviceNotReady, notReadyState, []) :=
  claim_C7_ready_gate demoDevice notReadyState demoRequest (demoSpec "A") rfl

/-- Filtering a concatenated trace for lock events. -/
theorem noLockEvents_append (t1 t2 : List Event) :
    noLockEvents (t1 ++ t2) = (noLockEvents t1 && noLockEvents t2) := by
  simp [noLockEvents, List.all_append]

/-- The loader emits no lock events of its own (it runs inside the
caller's critical section). -/
theorem noLockEvents_ensureLoaded (dev : Device) (s : PlannerState) (name : String) :
    noLockEvents (ensureLoaded dev s name).2.2 = true := by
  unfold ensureLoaded loadFresh
  rcases s.loaded_roadmap with _ | lr
  · rcases lookupSpec s.roadmaps name with _ | spec
    · rfl
    · rcases dev.loadResult name with _ | idx <;> rfl
  · by_cases h : lr.name = name
    · simp [h, noLockEvents]
    · simp only [h, if_false]
      rcases lookupSpec s.roadmaps name with _ | spec
      · rfl
      · rcases dev.loadResult name with _ | idx <;> rfl

/-- The guarded sparse-solve core emits no lock events of its own. -/
theorem noLockEvents_solveSparseLocked (dev : Device) (s : PlannerState)
    (req : SolveRequest) :
    noLockEvents (solveSparseLocked dev s req).2.2 = true := by
  unfold solveSparseLocked
  have h := noLockEvents_ensureLoaded dev s req.roadmap_spec.name
  rcases he : ensureLoaded dev s req.roadmap_spec.name with ⟨r, s1, t⟩
  rw [he] at h
  rcases r with e | idx
  · exact h
  · simp only [noLockEvents] at h
    simp only
    split
    · simpa [noLockEvents] using h
    · split <;> simp_all [noLockEvents_append, noLockEvents, isLockEvent]

/-- The guarded dense-solve core emits no lock events of its own. -/
theorem noLockEvents_solveDenseLocked (dev : Device) (s : PlannerState)
    (req : SolveRequest) :
    noLockEvents (solveDenseLocked dev s req).2.2 = true := by
  unfold solveDenseLocked
  have h := noLockEvents_solveSparseLocked dev s req
  rcases he : solveSparseLocked dev s req with ⟨r, s1, t⟩
  rw [he] at h
  simp only [noLockEvents] at h
  rcases r with e | sol <;> simp_all [noLockEvents_append, noLockEvents, isLockEvent]

/-- The guarded introspection core emits no lock events of its own. -/
theorem noLockEvents_readLocked {α : Type} (dev : Device) (s : PlannerState)
    (name : String) (read : String → α) :
    noLockEvents (readLocked dev s name read).2.2 = true := by
  unfold readLocked
  have h := noLockEvents_ensureLoaded dev s name
  rcases he : ensureLoaded dev s name with ⟨r, s1, t⟩
  rw [he] at h
  rcases r with e | idx
  · exact h
  · simp only [noLockEvents] at h
    simp only
    split <;> simp_all [noLockEvents_append, noLockEvents, isLockEvent]

/-- Wrapping a lock-free trace in the exclusive lock yields a
well-guarded trace. -/
theorem wellGuarded_withLock (t : List Event) (h : noLockEvents t = true) :
    wellGuarded (withLock t) = true := by
  have h1 : wellGuarded (withLock t) =
      match (t ++ [Event.lockRelease]).getLast? with
      | some Event.lockRelease => noLockEvents (t ++ [Event.lockRelease]).dropLast
      | _ => false := rfl
  rw [h1, List.getLast?_concat, List.dropLast_concat]
  exact h

/-- C8: every device-touching operation produces a well-guarded trace on
every input and every exit path — either it never touches the device
(empty trace), or the trace consists of exactly one lock acquisition,
then only device interactions, then a final lock release — so all
device interactions happen inside the single process-wide critical
section and the lock is released on success and on failure alike. -/
theorem claim_C8_lock_discipline (dev : Device) (s : PlannerState)
    (req : SolveRequest) (spec : RoadmapSpecification) :
    wellGuarded (solveSparse dev s req).2.2 = true ∧
    wellGuarded (solveDense dev s req).2.2 = true ∧
    wellGuarded (getRoadmapConfigs dev s spec).2.2 = true ∧
    wellGuarded (getRoadmapEdges dev s spec).2.2 = true ∧
    wellGuarded (getRoadmapTransforms dev s spec).2.2 = true := by
  refine ⟨?_, ?_, ?_, ?_, ?_⟩
  · unfold solveSparse
    split
    · rfl
    · split
      · rfl
      · split
        · rfl
        · exact wellGuarded_withLock _ (noLockEvents_solveSparseLocked dev s req)
  · unfold solveDense
    split
    · rfl
    · split
      · rfl
      · split
        · rfl
        · exact wellGuarded_withLock _ (noLockEvents_solveDenseLocked dev s req)
  · unfold getRoadmapConfigs
    split
    · rfl
    · exact wellGuarded_withLock _ (noLockEvents_readLocked dev s spec.name _)
  · unfold getRoadmapEdges
    split
    · rfl
    · exact wellGuarded_withLock _ (noLockEvents_readLocked dev s spec.name _)
  · unfold getRoadmapTransforms
    split
    · rfl
    · exact wellGuarded_withLock _ (noLockEvents_readLocked dev s spec.name _)

/-- The fast path of the loader: requesting the currently loaded roadmap
returns the cached index, leaves the state unchanged and emits no
events. -/
theorem ensureLoaded_fastPath (dev : Device) (s : PlannerState)
    (lr : LoadedRoadmapState) (h : s.loaded_roadmap = some lr) :
    ensureLoaded dev s lr.name = (.ok lr.index, s, []) := by
  unfold ensureLoaded
  rw [h]
  simp

/-- The four possible shapes of a loader call: cache hit, unknown
roadmap, successful fresh load, failed load. -/
theorem ensureLoaded_cases (dev : Device) (s : PlannerState) (name : String) :
    (∃ idx, ensureLoaded dev s name = (.ok idx, s, [])) ∨
    ensureLoaded dev s name = (.error .UnknownRoadmap, s, []) ∨
    (∃ idx, ensureLoaded dev s name =
      (.ok idx,
       { s with loaded_roadmap := some ⟨name, idx⟩,
                roadmap_indices := (idx, name) :: s.roadmap_indices },
       [Event.deviceLoad name])) ∨
    ensureLoaded dev s name = (.error .DeviceLoadError, s, [Event.deviceLoad name]) := by
  unfold ensureLoaded loadFresh
  rcases s.loaded_roadmap with _ | lr
  · rcases lookupSpec s.roadmaps name with _ | spec
    · right; left; rfl
    · rcases dev.loadResult name with _ | idx
      · right; right; right; rfl
      · right; right; left; exact ⟨idx, rfl⟩
  · by_cases h : lr.name = name
    · left; exact ⟨lr.index, by simp [h]⟩
    · simp only [h, if_false]
      rcases lookupSpec s.roadmaps name with _ | spec
      · right; left; rfl
      · rcases dev.loadResult name with _ | idx
        · right; right; right; rfl
        · right; right; left; exact ⟨idx, rfl⟩

/-- C1: the loaded-roadmap bookkeeping is a single-slot cache — a load
request for any known roadmap name other than the currently loaded one
invokes the device load operation (exactly once for that request); and
loading roadmap `A`, then `B`, then `A` again invokes the device load
exactly three times and leaves the loaded-roadmap name equal to
`"A"`. -/
theorem claim_C1_single_slot (dev : Device) (s : PlannerState) (name : String)
    (lr : LoadedRoadmapState) (h : s.loaded_roadmap = some lr) (hne : lr.name ≠ name)
    (hreg : (lookupSpec s.roadmaps name).isSome = true) :
    countLoads (ensureLoaded dev s name).2.2 = 1 ∧
    countLoads (runLoads demoDevice demoState ["A", "B", "A"]).2 = 3 ∧
    ((runLoads demoDevice demoState ["A", "B", "A"]).1.loaded_roadmap.map
      LoadedRoadmapState.name) = some "A" := by
  refine ⟨?_, by decide, by decide⟩
  unfold ensureLoaded loadFresh
  rw [h]
  simp only [hne, if_false]
  rcases hl : lookupSpec s.roadmaps name with _ | spec
  · rw [hl] at hreg
    simp at hreg
  · rcases dev.loadResult name with _ | idx <;> simp [countLoads]

/-- C1 witness: with roadmap `A` resident, a load request for `B`
invokes the device load exactly once. -/
theorem claim_C1_single_slot_witness :
    countLoads (ensureLoaded demoDevice demoStateLoadedA "B").2.2 = 1 ∧
    countLoads (runLoads demoDevice demoState ["A", "B", "A"]).2 = 3 ∧
    ((runLoads demoDevice demoState ["A", "B", "A"]).1.loaded_roadmap.map
      LoadedRoadmapState.name) = some "A" :=
  claim_C1_single_slot demoDevice demoStateLoadedA "B" ⟨"A", 0⟩ rfl
    (by decide) (by decide)

/-- A sparse solve on the currently loaded roadmap leaves the state
unchanged and performs no device load. -/
theorem solveSparse_fastPath_noLoad (dev : Device) (s : PlannerState)
    (req : SolveRequest) (lr : LoadedRoadmapState)
    (h : s.loaded_roadmap = some lr) (hn : req.roadmap_spec.name = lr.name) :
    (solveSparse dev s req).2.1 = s ∧ countLoads (solveSparse dev s req).2.2 = 0 := by
  have hfast : ensureLoaded dev s req.roadmap_spec.name = (.ok lr.index, s, []) := by
    rw [hn]
    exact ensureLoaded_fastPath dev s lr h
  unfold solveSparse
  split
  · exact ⟨rfl, rfl⟩
  split
  · exact ⟨rfl, rfl⟩
  split
  · exact ⟨rfl, rfl⟩
  unfold solveSparseLocked
  rw [hfast]
  simp only
  split
  · exact ⟨rfl, by simp [withLock, countLoads]⟩
  · split <;> exact ⟨rfl, by simp [withLock, countLoads]⟩

/-- C2: when the requested name equals the name of the currently
loaded roadmap, `ensureLoaded` returns the cached device index with no device
interaction, and two consecutive solves on that roadmap invoke the
device load zero times. -/
theorem claim_C2_fast_path (dev : Device) (s : PlannerState) (name : String)
    (idx : ℕ) (req1 req2 : SolveRequest)
    (h : s.loaded_roadmap = some ⟨name, idx⟩)
    (h1 : req1.roadmap_spec.name = name) (h2 : req2.roadmap_spec.name = name) :
    ensureLoaded dev s name = (.ok idx, s, []) ∧
    countLoads (solveSparse dev s req1).2.2 +
      countLoads (solveSparse dev (solveSparse dev s req1).2.1 req2).2.2 = 0 := by
  have hfast := ensureLoaded_fastPath dev s ⟨name, idx⟩ h
  have first := solveSparse_fastPath_noLoad dev s req1 ⟨name, idx⟩ h h1
  have second := solveSparse_fastPath_noLoad dev s req2 ⟨name, idx⟩ h h2
  refine ⟨hfast, ?_⟩
  rw [first.2, first.1, second.2]

/-- C2 witness: with roadmap `A` resident at index 0, the loader
fast-path returns index 0 and two consecutive solves on `A` perform no
device load. -/
theorem claim_C2_fast_path_witness :
    ensureLoaded demoDevice demoStateLoadedA "A" =
      (.ok 0, demoStateLoadedA, []) ∧
    countLoads (solveSparse demoDevice demoStateLoadedA
        { demoRequest with roadmap_spec := demoSpec "A" }).2.2 +
      countLoads (solveSparse demoDevice
        (solveSparse demoDevice demoStateLoadedA
          { demoRequest with roadmap_spec := demoSpec "A" }).2.1
        { demoRequest with roadmap_spec := demoSpec "A" }).2.2 = 0 :=
  claim_C2_fast_path demoDevice demoStateLoadedA "A" 0
    { demoRequest with roadmap_spec := demoSpec "A" }
    { demoRequest with roadmap_spec := demoSpec "A" } rfl rfl rfl

/-- C3: when the device load operation fails on a load request that
actually reaches the device (known roadmap, not the resident one), the
operation fails with `DeviceLoadError` and the planner state — in
particular the loaded-roadmap bookkeeping — is left unchanged. -/
theorem claim_C3_failed_load (dev : Device) (s : PlannerState) (name : String)
    (hfail : dev.loadResult name = none)
    (hreg : (lookupSpec s.roadmaps name).isSome = true)
    (hne : ∀ lr, s.loaded_roadmap = some lr → lr.name ≠ name) :
    ensureLoaded dev s name = (.error .DeviceLoadError, s, [Event.deviceLoad name]) := by
  unfold ensureLoaded loadFresh
  rcases hl : s.loaded_roadmap with _ | lr
  · rcases hspec : lookupSpec s.roadmaps name with _ | spec
    · rw [hspec] at hreg
      simp at hreg
    · rw [hfail]
  · have := hne lr hl
    simp only [this, if_false]
    rcases hspec : lookupSpec s.roadmaps name with _ | spec
    · rw [hspec] at hreg
      simp at hreg
    · rw [hfail]

/-- C3 witness: with `A` resident and a failing device, loading `B`
fails with `DeviceLoadError` and leaves `A` resident. -/
theorem claim_C3_failed_load_witness :
    ensureLoaded loadFailDevice demoStateLoadedA "B" =
      (.error .DeviceLoadError, demoStateLoadedA, [Event.deviceLoad "B"]) :=
  claim_C3_failed_load loadFailDevice demoStateLoadedA "B" rfl (by decide)
    (by intro lr hlr
        simp only [demoStateLoadedA] at hlr
        cases hlr
        decide)


/-- With the requested roadmap already resident and a valid start state,
the guarded solve core is exactly the interpretation of the device
search outcome, with one search event and no state change. -/
theorem solveSparseLocked_fastPath (dev : Device) (s : PlannerState)
    (req : SolveRequest) (lr : LoadedRoadmapState)
    (h : s.loaded_roadmap = some lr) (hn : req.roadmap_spec.name = lr.name)
    (hstart : req.start_state_id < (dev.configs req.roadmap_spec.name).length) :
    solveSparseLocked dev s req =
      match dev.search lr.index req.start_state_id (toDeviceGoal req.goal)
          req.occupancy req.timeout with
      | .pathFound ws es =>
          (.ok ⟨dev.configs req.roadmap_spec.name, ws, es⟩, s, [Event.deviceSearch])
      | .noPathFound => (.error .NoSolutionFound, s, [Event.deviceSearch])
      | .timedOut => (.error .PlanningTimeout, s, [Event.deviceSearch])
      | .deviceFailure => (.error .DeviceError, s, [Event.deviceSearch]) := by
  have hfast : ensureLoaded dev s req.roadmap_spec.name = (.ok lr.index, s, []) := by
    rw [hn]
    exact ensureLoaded_fastPath dev s lr h
  unfold solveSparseLocked
  rw [hfast]
  simp only
  rw [if_neg (not_le.mpr hstart)]
  rcases dev.search lr.index req.start_state_id (toDeviceGoal req.goal)
      req.occupancy req.timeout with ⟨ws, es⟩ | _ | _ | _ <;> rfl

/-- With the readiness, timeout and goal gates all open, the sparse
solve is its guarded core wrapped in the lock. -/
theorem solveSparse_open_gates (dev : Device) (s : PlannerState) (req : SolveRequest)
    (hready : s.ready = true) (ht : 0 < req.timeout)
    (hg : goalValid req.goal = true) :
    solveSparse dev s req =
      ((solveSparseLocked dev s req).1, (solveSparseLocked dev s req).2.1,
       withLock (solveSparseLocked dev s req).2.2) := by
  unfold solveSparse
  simp [hready, hg, not_le.mpr ht]

/-- With the readiness, timeout and goal gates all open, the dense solve
is its guarded core wrapped in the lock. -/
theorem solveDense_open_gates (dev : Device) (s : PlannerState) (req : SolveRequest)
    (hready : s.ready = true) (ht : 0 < req.timeout)
    (hg : goalValid req.goal = true) :
    solveDense dev s req =
      ((solveDenseLocked dev s req).1, (solveDenseLocked dev s req).2.1,
       withLock (solveDenseLocked dev s req).2.2) := by
  unfold solveDense
  simp [hready, hg, not_le.mpr ht]

/-- C5: for every well-formed solve request (ready, positive timeout,
valid goal, resident roadmap, valid start state), the device result code
is interpreted as: success-with-path yields the extracted solution
(sparse data, or interpolated configurations for the dense variant),
success-empty fails with `NoSolutionFound`, timeout-exceeded fails with
`PlanningTimeout`, and a device error fails with `DeviceError`; exactly
one device search is performed (no internal retry). -/
theorem claim_C5_result_interpretation (dev : Device) (s : PlannerState)
    (req : SolveRequest) (lr : LoadedRoadmapState)
    (hready : s.ready = true) (ht : 0 < req.timeout)
    (hg : goalValid req.goal = true)
    (h : s.loaded_roadmap = some lr) (hn : req.roadmap_spec.name = lr.name)
    (hstart : req.start_state_id < (dev.configs req.roadmap_spec.name).length) :
    ((solveSparse dev s req).1 =
      match dev.search lr.index req.start_state_id (toDeviceGoal req.goal)
          req.occupancy req.timeout with
      | .pathFound ws es => .ok ⟨dev.configs req.roadmap_spec.name, ws, es⟩
      | .noPathFound => .error .NoSolutionFound
      | .timedOut => .error .PlanningTimeout
      | .deviceFailure => .error .DeviceError) ∧
    countSearches (solveSparse dev s req).2.2 = 1 ∧
    ((solveDense dev s req).1 =
      match dev.search lr.index req.start_state_id (toDeviceGoal req.goal)
          req.occupancy req.timeout with
      | .pathFound _ es => .ok (dev.interpolate es)
      | .noPathFound => .error .NoSolutionFound
      | .timedOut => .error .PlanningTimeout
      | .deviceFailure => .error .DeviceError) ∧
    countSearches (solveDense dev s req).2.2 = 1 := by
  have hopen := solveSparse_open_gates dev s req hready ht hg
  have hopend := solveDense_open_gates dev s req hready ht hg
  have hlocked := solveSparseLocked_fastPath dev s req lr h hn hstart
  rw [hopen, hopend]
  rcases hs : dev.search lr.index req.start_state_id (toDeviceGoal req.goal)
      req.occupancy req.timeout with ⟨ws, es⟩ | _ | _ | _ <;>
    rw [hs] at hlocked <;>
    simp [hlocked, solveDenseLocked, countSearches, withLock]

/-- A ready planner state with the ten-state `shelf_pick` roadmap
resident at device index 2. -/
def stateLoadedShelf : PlannerState :=
  ⟨true, demoRegistry, some ⟨"shelf_pick", 2⟩, [(2, "shelf_pick")]⟩

/-- The demo device whose search always reports success-empty (no
feasible path). -/
def noPathDevice : Device :=
  { demoDevice with search := fun _ _ _ _ _ => .noPathFound }

/-- A solve request whose goal is a tool-pose target with zero
tolerance. -/
def zeroTolRequest : SolveRequest :=
  { roadmap_spec := demoSpec "shelf_pick", start_state_id := 0,
    goal := zeroTolGoal, occupancy := [], timeout := 1 }

/-- C5 witness: a tool-pose goal with zero tolerance against a device
that finds no reachable state yields `NoSolutionFound` as an ordinary
result, after exactly one search call. -/
theorem claim_C5_witness :
    (solveSparse noPathDevice stateLoadedShelf zeroTolRequest).1 =
      .error .NoSolutionFound ∧
    countSearches (solveSparse noPathDevice stateLoadedShelf zeroTolRequest).2.2 = 1 := by
  have h := claim_C5_result_interpretation noPathDevice stateLoadedShelf
    zeroTolRequest ⟨"shelf_pick", 2⟩ rfl (by decide) rfl rfl rfl (by decide)
  exact ⟨h.1, h.2.1⟩

/-- C6: every successful sparse solve returns the waypoint and edge
index sequences exactly as reported by the device search, together with
the full configuration list of the resident roadmap; the sparse variant
never invokes the interpolator (its result is invariant under replacing
the device interpolation function). -/
theorem claim_C6_sparse_output (dev : Device) (s : PlannerState)
    (req : SolveRequest) (lr : LoadedRoadmapState) (ws es : List ℕ)
    (hready : s.ready = true) (ht : 0 < req.timeout)
    (hg : goalValid req.goal = true)
    (h : s.loaded_roadmap = some lr) (hn : req.roadmap_spec.name = lr.name)
    (hstart : req.start_state_id < (dev.configs req.roadmap_spec.name).length)
    (hfound : dev.search lr.index req.start_state_id (toDeviceGoal req.goal)
        req.occupancy req.timeout = .pathFound ws es) :
    (solveSparse dev s req).1 =
      .ok ⟨dev.configs req.roadmap_spec.name, ws, es⟩ ∧
    ∀ f, solveSparse { dev with interpolate := f } s req = solveSparse dev s req := by
  have hopen := solveSparse_open_gates dev s req hready ht hg
  have hlocked := solveSparseLocked_fastPath dev s req lr h hn hstart
  rw [hfound] at hlocked
  constructor
  · rw [hopen, hlocked]
  · intro f
    rfl

/-- C6 witness: the end-to-end scenario — a device path `0 → 3 → 9`
over edges `[2, 5]` on the 10-state `shelf_pick` roadmap yields
waypoints `[0, 3, 9]`, edges `[2, 5]` and all 10 configurations, with
no interpolation. -/
theorem claim_C6_witness :
    (solveSparse demoDevice stateLoadedShelf demoRequest).1 =
      .ok ⟨shelfConfigs, [0, 3, 9], [2, 5]⟩ ∧
    shelfConfigs.length = 10 ∧
    solveSparse { demoDevice with interpolate := fun _ => [] }
        stateLoadedShelf demoRequest =
      solveSparse demoDevice stateLoadedShelf demoRequest := by
  have h := claim_C6_sparse_output demoDevice stateLoadedShelf demoRequest
    ⟨"shelf_pick", 2⟩ [0, 3, 9] [2, 5] rfl (by decide) rfl rfl rfl (by decide) rfl
  exact ⟨h.1, by decide, h.2 _⟩

/-- A request against registered roadmap `B` whose start state id 99 is
out of range for the three-state roadmap `B`. -/
def invalidStartRequest : SolveRequest :=
  { roadmap_spec := demoSpec "B", start_state_id := 99, goal := demoGoal,
    occupancy := [], timeout := 1 }

/-- C4 counterexample: with roadmap `A` resident, a solve on roadmap
`B` with an out-of-range start state id fails with `InvalidStartState`
as claimed — but only after the device load has swapped `B` in, so the
device state *does* change: the loaded roadmap goes from `A` to `B` and
one device load is performed, refuting "without changing device state"
for `InvalidStartState` (the spec itself places this check after the
load). -/
theorem claim_C4_counterexample :
    (solveSparse demoDevice demoStateLoadedA invalidStartRequest).1 =
      .error .InvalidStartState ∧
    demoStateLoadedA.loaded_roadmap = some ⟨"A", 0⟩ ∧
    (solveSparse demoDevice demoStateLoadedA invalidStartRequest).2.1.loaded_roadmap =
      some ⟨"B", 1⟩ ∧
    countLoads (solveSparse demoDevice demoStateLoadedA invalidStartRequest).2.2 = 1 := by
  decide

/-- C4 (amended): every validation error is returned before any device
search call; `InvalidTimeout`, `InvalidGoalSpecification` and
`UnknownRoadmap` are additionally detected without any device
interaction and leave the planner state unchanged, while
`InvalidStartState` is detected only after the roadmap load. -/
theorem claim_C4_validation (dev : Device) (s : PlannerState)
    (req : SolveRequest) (e : PlanError)
    (he : e = .InvalidTimeout ∨ e = .InvalidGoalSpecification ∨
          e = .UnknownRoadmap ∨ e = .InvalidStartState)
    (hr : (solveSparse dev s req).1 = .error e) :
    countSearches (solveSparse dev s req).2.2 = 0 ∧
    ((e = .InvalidTimeout ∨ e = .InvalidGoalSpecification ∨ e = .UnknownRoadmap) →
      deviceEvents (solveSparse dev s req).2.2 = [] ∧
      (solveSparse dev s req).2.1 = s) := by
  rcases hready : s.ready with _ | _
  · -- not ready: the result is DeviceNotReady, contradicting he
    have hres : solveSparse dev s req = (.error .DeviceNotReady, s, []) := by
      unfold solveSparse
      simp [hready]
    rw [hres] at hr
    simp only at hr
    rcases he with rfl | rfl | rfl | rfl <;> simp at hr
  · by_cases ht : req.timeout ≤ 0
    · have hres : solveSparse dev s req = (.error .InvalidTimeout, s, []) := by
        unfold solveSparse
        simp [hready, ht]
      rw [hres]
      exact ⟨rfl, fun _ => ⟨rfl, rfl⟩⟩
    · by_cases hg : goalValid req.goal = true
      · have hopen := solveSparse_open_gates dev s req hready (not_le.mp ht) hg
        rw [hopen] at hr ⊢
        simp only at hr ⊢
        rcases ensureLoaded_cases dev s req.roadmap_spec.name with
          ⟨idx, hel⟩ | hel | ⟨idx, hel⟩ | hel
        · -- cache hit
          unfold solveSparseLocked at hr ⊢
          rw [hel] at hr ⊢
          simp only at hr ⊢
          by_cases hstart :
              req.start_state_id ≥ (dev.configs req.roadmap_spec.name).length
          · rw [if_pos hstart] at hr ⊢
            refine ⟨by simp [countSearches, withLock], fun hee => ?_⟩
            simp only at hr
            rcases hee with rfl | rfl | rfl <;> simp at hr
          · rw [if_neg hstart] at hr ⊢
            rcases hs : dev.search idx req.start_state_id (toDeviceGoal req.goal)
                req.occupancy req.timeout with ⟨ws, es⟩ | _ | _ | _ <;>
              rw [hs] at hr <;>
              rcases he with rfl | rfl | rfl | rfl <;> simp at hr
        · -- unknown roadmap
          unfold solveSparseLocked at hr ⊢
          rw [hel] at hr ⊢
          exact ⟨by simp [countSearches, withLock],
            fun _ => ⟨by simp [deviceEvents, withLock, isDeviceEvent], rfl⟩⟩
        · -- fresh load succeeded
          unfold solveSparseLocked at hr ⊢
          rw [hel] at hr ⊢
          simp only at hr ⊢
          by_cases hstart :
              req.start_state_id ≥ (dev.configs req.roadmap_spec.name).length
          · rw [if_pos hstart] at hr ⊢
            refine ⟨by simp [countSearches, withLock], fun hee => ?_⟩
            simp only at hr
            rcases hee with rfl | rfl | rfl <;> simp at hr
          · rw [if_neg hstart] at hr ⊢
            rcases hs : dev.search idx req.start_state_id (toDeviceGoal req.goal)
                req.occupancy req.timeout with ⟨ws, es⟩ | _ | _ | _ <;>
              rw [hs] at hr <;>
              rcases he with rfl | rfl | rfl | rfl <;> simp at hr
        · -- device load failed
          unfold solveSparseLocked at hr ⊢
          rw [hel] at hr ⊢
          simp only at hr
          rcases he with rfl | rfl | rfl | rfl <;> simp at hr
      · have hgf : goalValid req.goal = false := by
          revert hg
          cases goalValid req.goal <;> simp
        have hres : solveSparse dev s req =
            (.error .InvalidGoalSpecification, s, []) := by
          unfold solveSparse
          simp [hready, ht, hgf]
        rw [hres]
        exact ⟨rfl, fun _ => ⟨rfl, rfl⟩⟩

/-- The demo request with a non-positive timeout. -/
def timeoutRequest : SolveRequest := { demoRequest with timeout := 0 }

/-- C4 witness: a solve with timeout 0 fails with `InvalidTimeout`,
performs no search, touches no device state and leaves the planner
state unchanged. -/
theorem claim_C4_validation_witness :
    countSearches (solveSparse demoDevice demoState timeoutRequest).2.2 = 0 ∧
    deviceEvents (solveSparse demoDevice demoState timeoutRequest).2.2 = [] ∧
    (solveSparse demoDevice demoState timeoutRequest).2.1 = demoState := by
  have h := claim_C4_validation demoDevice demoState timeoutRequest .InvalidTimeout
    (Or.inl rfl) (by decide)
  exact ⟨h.1, (h.2 (Or.inl rfl)).1, (h.2 (Or.inl rfl)).2⟩


end RtrMoveit
